import Mathlib

/-!
Verification development for the Phase Change Diagram API
(`src/phase_change_api.py`).

The program is a FastAPI service.  Its arithmetic core is embedded
shallowly over `ℚ` (exact arithmetic; Python floats are idealised as
rationals, except where non-finite values matter, for which a dedicated
`PyFloat` type models Python float semantics).  Fallible code is embedded
as `Except ErrKind`: Python raising an exception that the handler maps to
an HTTP error corresponds to returning `.error e`.
-/

namespace PhaseChangeAPI

/-- The error kinds of the spec's tagged enumeration (§7, §9): the source
uses dynamic exceptions (`ZeroDivisionError` caught at line 85 → HTTP 400,
pydantic validation failure at the `Query(ge=0)` boundary → HTTP 422,
`ValueError` from the validity check at lines 75-77 → HTTP 400,
a failure during module-level constant derivation aborting startup). -/
inductive ErrKind where
  | invalidInput
  | divisionByZero
  | nonFiniteResult
  | configurationError
deriving DecidableEq, Repr

/-- Response model `PhaseChangeResponse` (lines 14-17): the two computed
specific volumes (the `pressure` field is commented out in the source). -/
structure PhaseChangeResponse where
  specific_volume_liquid : ℚ
  specific_volume_vapor : ℚ
deriving DecidableEq, Repr

/-- Calibration constant `X1` (line 20). -/
def X1 : ℚ := 0.00105

/-- Calibration constant `X2` (line 21). -/
def X2 : ℚ := 0.0035

/-- Calibration constant `X3` (line 22). -/
def X3 : ℚ := 30

/-- Calibration constant `Y1` (line 23). -/
def Y1 : ℚ := 0.05

/-- Calibration constant `Y2` (line 24). -/
def Y2 : ℚ := 10

/-- Calibration constant `Y3` (line 25). -/
def Y3 : ℚ := 0.05

/-- Liquid slope `ML = (Y2 - Y1) / (X2 - X1)` (line 28). -/
def ML : ℚ := (Y2 - Y1) / (X2 - X1)

/-- Vapor slope `MV = (Y3 - Y2) / (X3 - X2)` (line 29). -/
def MV : ℚ := (Y3 - Y2) / (X3 - X2)

/-- Liquid intercept `AL = Y2 - (ML * X2)` (line 30). -/
def AL : ℚ := Y2 - (ML * X2)

/-- Vapor intercept `AV = Y3 - (MV * X3)` (line 31). -/
def AV : ℚ := Y3 - (MV * X3)

/-- Round-half-to-even to the nearest integer: the tie-breaking rule of
Python 3's built-in `round`. -/
def roundHalfEven (q : ℚ) : ℤ :=
  let n := ⌊q⌋
  let r := q - (n : ℚ)
  if r < 1 / 2 then n
  else if 1 / 2 < r then n + 1
  else if n % 2 = 0 then n else n + 1

/-- Python's `round(x, 6)` idealised over `ℚ`: round to the nearest
multiple of `10⁻⁶`, ties to even. -/
def round6 (q : ℚ) : ℚ := (roundHalfEven (q * 1000000) : ℚ) / 1000000

/-- The arithmetic body of the handler (lines 71-72), generalised over the
four derived parameters as §4.2 of the spec describes
(`PhaseVolumeCalculator` over a `ModelParameters` record).  Python float
division by zero raises `ZeroDivisionError`, which the handler catches at
line 85; this is embedded as `.error .divisionByZero`. -/
def computeVolumes (ml mv al av p : ℚ) : Except ErrKind (ℚ × ℚ) :=
  if ml = 0 then .error .divisionByZero
  else if mv = 0 then .error .divisionByZero
  else .ok ((p - al) / ml, (p - av) / mv)

/-- The `/phase-change-diagram` handler (lines 51-99).  The
`Query(..., ge=0)` constraint (line 56) makes pydantic reject a negative
`pressure` before the handler body runs (HTTP 422; the spec's
`InvalidInputError`).  Then the two volumes are computed (lines 71-72)
and returned rounded to 6 decimals (lines 81-82). -/
def get_phase_change_diagram (pressure : ℚ) : Except ErrKind PhaseChangeResponse :=
  if pressure < 0 then .error .invalidInput
  else
    match computeVolumes ML MV AL AV pressure with
    | .error e => .error e
    | .ok (l, v) =>
        .ok { specific_volume_liquid := round6 l
              specific_volume_vapor := round6 v }

/-- The derived-parameter record of the spec's `ModelParameters` (§4.1). -/
structure ModelParameters where
  ml : ℚ
  mv : ℚ
  al : ℚ
  av : ℚ
deriving DecidableEq, Repr

/-- The module-level derivation of the four parameters (lines 28-31),
generalised over the six calibration inputs.  In Python, a zero
denominator makes the float division at line 28 or 29 raise
`ZeroDivisionError` while the module loads, so initialization fails and
the process cannot serve traffic; the spec's tagged name for that startup
failure is `ConfigurationError` (§7, §9). -/
def deriveParameters (x1 x2 x3 y1 y2 y3 : ℚ) : Except ErrKind ModelParameters :=
  if x2 - x1 = 0 then .error .configurationError
  else if x3 - x2 = 0 then .error .configurationError
  else
    let ml := (y2 - y1) / (x2 - x1)
    let mv := (y3 - y2) / (x3 - x2)
    .ok { ml := ml, mv := mv, al := y2 - ml * x2, av := y3 - mv * x3 }

/-- The `constants` block of the `/constants` response (lines 105-112). -/
structure CalibrationConstants where
  x1 : ℚ
  x2 : ℚ
  x3 : ℚ
  y1 : ℚ
  y2 : ℚ
  y3 : ℚ
deriving DecidableEq, Repr

/-- The `calculated_parameters` block of the `/constants` response
(lines 113-118). -/
structure CalculatedParameters where
  ml : ℚ
  mv : ℚ
  al : ℚ
  av : ℚ
deriving DecidableEq, Repr

/-- The full `/constants` response (lines 104-119). -/
structure ConstantsResponse where
  constants : CalibrationConstants
  calculated_parameters : CalculatedParameters
deriving DecidableEq, Repr

/-- The `/constants` handler `get_constants` (lines 101-119): it returns
the six module-level calibration constants and the four module-level
derived parameters. -/
def get_constants : ConstantsResponse :=
  { constants := { x1 := X1, x2 := X2, x3 := X3, y1 := Y1, y2 := Y2, y3 := Y3 }
    calculated_parameters := { ml := ML, mv := MV, al := AL, av := AV } }

/-- A Python `float` for the purposes of non-finiteness analysis: a finite
value (idealised as an exact rational), positive or negative infinity, or
NaN.  `float("inf")` and `float("nan")` are valid query-parameter inputs
in FastAPI, so the handler can receive them. -/
inductive PyFloat where
  | finite (q : ℚ)
  | inf
  | negInf
  | nan
deriving DecidableEq, Repr

/-- Python float subtraction, restricted to a finite second operand (the
only case the handler exercises: `pressure - AL`, `pressure - AV` with
finite module constants).  `inf - finite = inf`, `(-inf) - finite = -inf`,
`nan - finite = nan`. -/
def PyFloat.subFin : PyFloat → ℚ → PyFloat
  | .finite a, b => .finite (a - b)
  | .inf, _ => .inf
  | .negInf, _ => .negInf
  | .nan, _ => .nan

/-- Python float division by a finite divisor.  Unlike IEEE-754, Python
raises `ZeroDivisionError` on division of any float by `0.0` (including
`inf / 0.0`); otherwise `inf / b` keeps or flips sign with the divisor and
`nan / b = nan`. -/
def PyFloat.divFin (a : PyFloat) (b : ℚ) : Except ErrKind PyFloat :=
  if b = 0 then .error .divisionByZero
  else
    match a with
    | .finite q => .ok (.finite (q / b))
    | .inf => .ok (if 0 < b then .inf else .negInf)
    | .negInf => .ok (if 0 < b then .negInf else .inf)
    | .nan => .ok .nan

/-- The pydantic `ge=0` validation (line 56) on a Python float:
`p >= 0` is `True` for any non-negative finite value and for `inf`, and
`False` for negative values and for `nan` (all comparisons with NaN are
`False`), so NaN input is rejected at the boundary. -/
def PyFloat.ge0 : PyFloat → Bool
  | .finite q => decide (0 ≤ q)
  | .inf => true
  | .negInf => false
  | .nan => false

/-- The validity check of lines 75-77: `isinstance(x, (int, float))`.
Every Python float — including `inf`, `-inf` and `nan` — is an instance
of `float`, so this test is `True` for every value the divisions can
produce. -/
def isinstance_int_float (_ : PyFloat) : Bool := true

/-- Python's `round(x, 6)` on a float: non-finite values round to
themselves (`round(inf, 6) == inf`, `round(nan, 6)` is NaN). -/
def PyFloat.round6F : PyFloat → PyFloat
  | .finite q => .finite (round6 q)
  | .inf => .inf
  | .negInf => .negInf
  | .nan => .nan

/-- The response record with Python-float fields (pydantic's `float`
accepts non-finite values by default). -/
structure PhaseChangeResponseF where
  specific_volume_liquid : PyFloat
  specific_volume_vapor : PyFloat
deriving DecidableEq, Repr

/-- The `/phase-change-diagram` handler over Python floats (lines 51-99):
the `ge=0` boundary check, the two divisions (lines 71-72), the
`isinstance` validity check (lines 75-77, raising `ValueError` — mapped to
`.nonFiniteResult` — when it fails), and the rounded response
(lines 79-83). -/
def get_phase_change_diagramF (pressure : PyFloat) : Except ErrKind PhaseChangeResponseF :=
  if ¬ pressure.ge0 then .error .invalidInput
  else
    match (pressure.subFin AL).divFin ML with
    | .error e => .error e
    | .ok l =>
      match (pressure.subFin AV).divFin MV with
      | .error e => .error e
      | .ok v =>
          if ¬ (isinstance_int_float l && isinstance_int_float v) then
            .error .nonFiniteResult
          else
            .ok { specific_volume_liquid := l.round6F
                  specific_volume_vapor := v.round6F }

/-! Shared helper lemmas. -/

theorem ML_eq : ML = 199000 / 49 := by
  norm_num [ML, X1, X2, Y1, Y2]

theorem MV_eq : MV = -19900 / 59993 := by
  norm_num [MV, X2, X3, Y2, Y3]

theorem AL_eq : AL = -59 / 14 := by
  rw [AL, ML_eq]
  norm_num [X2, Y2]

theorem AV_eq : AV = 11999993 / 1199860 := by
  rw [AV, MV_eq]
  norm_num [X3, Y3]

theorem ML_pos : 0 < ML := by
  rw [ML_eq]; norm_num

theorem MV_neg : MV < 0 := by
  rw [MV_eq]; norm_num

theorem ML_ne_zero : ML ≠ 0 := ne_of_gt ML_pos

theorem MV_ne_zero : MV ≠ 0 := ne_of_lt MV_neg

theorem roundHalfEven_ge_floor (q : ℚ) : ⌊q⌋ ≤ roundHalfEven q := by
  simp only [roundHalfEven]
  split_ifs <;> omega

theorem roundHalfEven_le_floor_add_one (q : ℚ) : roundHalfEven q ≤ ⌊q⌋ + 1 := by
  simp only [roundHalfEven]
  split_ifs <;> omega

theorem roundHalfEven_mono {a b : ℚ} (h : a ≤ b) : roundHalfEven a ≤ roundHalfEven b := by
  have hf : ⌊a⌋ ≤ ⌊b⌋ := Int.floor_mono h
  rcases lt_or_eq_of_le hf with hlt | heq
  · have h1 := roundHalfEven_le_floor_add_one a
    have h2 := roundHalfEven_ge_floor b
    omega
  · have hr : a - ((⌊a⌋ : ℤ) : ℚ) ≤ b - ((⌊a⌋ : ℤ) : ℚ) := by linarith
    simp only [roundHalfEven, ← heq]
    split_ifs <;> first | omega | linarith

theorem round6_mono {a b : ℚ} (h : a ≤ b) : round6 a ≤ round6 b := by
  unfold round6
  have h1 : a * 1000000 ≤ b * 1000000 := by linarith
  have h2 := roundHalfEven_mono h1
  have h3 : ((roundHalfEven (a * 1000000) : ℤ) : ℚ) ≤ ((roundHalfEven (b * 1000000) : ℤ) : ℚ) := by
    exact_mod_cast h2
  linarith

theorem roundHalfEven_eq_down (s : ℚ) (n : ℤ) (h1 : (n : ℚ) ≤ s)
    (h2 : s < (n : ℚ) + 1 / 2) : roundHalfEven s = n := by
  have hfl : ⌊s⌋ = n := Int.floor_eq_iff.mpr ⟨h1, by linarith⟩
  simp only [roundHalfEven, hfl]
  rw [if_pos (by linarith)]

theorem roundHalfEven_eq_up (s : ℚ) (n : ℤ) (h1 : (n : ℚ) + 1 / 2 < s)
    (h2 : s < (n : ℚ) + 1) : roundHalfEven s = n + 1 := by
  have hfl : ⌊s⌋ = n := Int.floor_eq_iff.mpr ⟨by linarith, by linarith⟩
  simp only [roundHalfEven, hfl]
  rw [if_neg (by linarith), if_pos (by linarith)]

theorem round6_eval_down (q : ℚ) (n : ℤ) (h1 : (n : ℚ) ≤ q * 1000000)
    (h2 : q * 1000000 < (n : ℚ) + 1 / 2) : round6 q = (n : ℚ) / 1000000 := by
  unfold round6
  rw [roundHalfEven_eq_down (q * 1000000) n h1 h2]

theorem round6_eval_up (q : ℚ) (n : ℤ) (h1 : (n : ℚ) + 1 / 2 < q * 1000000)
    (h2 : q * 1000000 < (n : ℚ) + 1) : round6 q = ((n : ℚ) + 1) / 1000000 := by
  unfold round6
  rw [roundHalfEven_eq_up (q * 1000000) n h1 h2]
  push_cast
  ring

theorem handler_ok_formula (p : ℚ) (hp : 0 ≤ p) :
    get_phase_change_diagram p =
      .ok { specific_volume_liquid := round6 ((p - AL) / ML)
            specific_volume_vapor := round6 ((p - AV) / MV) } := by
  unfold get_phase_change_diagram computeVolumes
  rw [if_neg (not_lt.mpr hp), if_neg ML_ne_zero, if_neg MV_ne_zero]

/-! Claim theorems. -/

/-- C1: for every pressure `p ≥ 0`, with the default calibration
constants, the `/phase-change-diagram` evaluation returns
`specific_volume_liquid = round6 ((p - AL) / ML)` and
`specific_volume_vapor = round6 ((p - AV) / MV)`, where
`ML = (Y2 - Y1)/(X2 - X1)`, `MV = (Y3 - Y2)/(X3 - X2)`,
`AL = Y2 - ML*X2` and `AV = Y3 - MV*X3`. -/
theorem evaluate_matches_round_formula (p : ℚ) (hp : 0 ≤ p) :
    get_phase_change_diagram p =
      .ok { specific_volume_liquid := round6 ((p - AL) / ML)
            specific_volume_vapor := round6 ((p - AV) / MV) } :=
  handler_ok_formula p hp

/-- Witness for C1 at `p = 5`: the formula evaluates to the concrete
response `(0.002269, 15.077118)`. -/
theorem evaluate_matches_round_formula_witness :
    get_phase_change_diagram 5 =
      .ok { specific_volume_liquid := 0.002269
            specific_volume_vapor := 15.077118 } := by
  rw [evaluate_matches_round_formula 5 (by norm_num)]
  have hl : (5 - AL) / ML = 903 / 398000 := by
    rw [AL_eq, ML_eq]; norm_num
  have hv : (5 - AV) / MV = 6000693 / 398000 := by
    rw [AV_eq, MV_eq]; norm_num
  rw [hl, hv, round6_eval_up (903 / 398000) 2268 (by norm_num) (by norm_num),
    round6_eval_down (6000693 / 398000) 15077118 (by norm_num) (by norm_num)]
  norm_num

theorem svl5_round : round6 ((5 - AL) / ML) = 0.002269 := by
  have hl : (5 - AL) / ML = 903 / 398000 := by rw [AL_eq, ML_eq]; norm_num
  rw [hl, round6_eval_up (903 / 398000) 2268 (by norm_num) (by norm_num)]
  norm_num

theorem handler_at_zero :
    get_phase_change_diagram 0 =
      .ok { specific_volume_liquid := 0.001038
            specific_volume_vapor := 30.150736 } := by
  rw [handler_ok_formula 0 le_rfl]
  have hl : (0 - AL) / ML = 413 / 398000 := by rw [AL_eq, ML_eq]; norm_num
  have hv : (0 - AV) / MV = 11999993 / 398000 := by rw [AV_eq, MV_eq]; norm_num
  rw [hl, hv, round6_eval_up (413 / 398000) 1037 (by norm_num) (by norm_num),
    round6_eval_down (11999993 / 398000) 30150736 (by norm_num) (by norm_num)]
  norm_num

theorem handler_at_one :
    get_phase_change_diagram 1 =
      .ok { specific_volume_liquid := 0.001284
            specific_volume_vapor := 27.136013 } := by
  rw [handler_ok_formula 1 (by norm_num)]
  have hl : (1 - AL) / ML = 511 / 398000 := by rw [AL_eq, ML_eq]; norm_num
  have hv : (1 - AV) / MV = 10800133 / 398000 := by rw [AV_eq, MV_eq]; norm_num
  rw [hl, hv, round6_eval_up (511 / 398000) 1283 (by norm_num) (by norm_num),
    round6_eval_up (10800133 / 398000) 27136012 (by norm_num) (by norm_num)]
  norm_num

/-- C2 (counterexample): the spec's concrete scenario numbers are wrong.
With the default constants, `ML = 199000/49 ≈ 4061.22`, more than 500 away
from the spec's claimed `≈ 3551.724138`; `AL = -59/14 ≈ -4.2143`, more
than 1 away from the claimed `≈ -2.431034`; and the handler's liquid
volume at pressure 5.0 is `0.002269`, not `0.002095`. -/
theorem spec_scenario_counterexample :
    |ML - 3551.724138| > 500 ∧ |AL - (-2.431034)| > 1 ∧
    (get_phase_change_diagram 5).map (fun r => r.specific_volume_liquid) =
      .ok 0.002269 ∧ (0.002269 : ℚ) ≠ 0.002095 := by
  refine ⟨?_, ?_, ?_, by norm_num⟩
  · rw [ML_eq, abs_of_pos (by norm_num)]; norm_num
  · rw [AL_eq, abs_of_neg (by norm_num)]; norm_num
  · rw [handler_ok_formula 5 (by norm_num)]
    simp only [Except.map, svl5_round]

/-- C2 (amended): with the default constants, `ML = (10 - 0.05) /
(0.0035 - 0.00105) ≈ 4061.224490`, `AL = 10 - ML * 0.0035 ≈ -4.214286`,
and evaluating at pressure 5.0 yields `specific_volume_liquid = 0.002269`
after rounding to 6 decimal places. -/
theorem spec_scenario_amended :
    ML = (10 - 0.05) / (0.0035 - 0.00105) ∧ round6 ML = 4061.224490 ∧
    AL = 10 - ML * 0.0035 ∧ round6 AL = -4.214286 ∧
    (get_phase_change_diagram 5).map (fun r => r.specific_volume_liquid) =
      .ok 0.002269 := by
  refine ⟨by norm_num [ML, X1, X2, Y1, Y2], ?_, by norm_num [AL, X2, Y2], ?_, ?_⟩
  · rw [ML_eq, round6_eval_up (199000 / 49) 4061224489 (by norm_num) (by norm_num)]
    norm_num
  · rw [AL_eq, round6_eval_down (-59 / 14) (-4214286) (by norm_num) (by norm_num)]
    norm_num
  · rw [handler_ok_formula 5 (by norm_num)]
    simp only [Except.map, svl5_round]

/-- C3: if the two x-values of the liquid segment coincide (`x1 = x2`),
the derivation of the model parameters hits a zero denominator and
initialization fails with the configuration error instead of producing a
slope. -/
theorem degenerate_calibration_rejected (x1 x2 x3 y1 y2 y3 : ℚ) (h : x1 = x2) :
    deriveParameters x1 x2 x3 y1 y2 y3 = .error .configurationError := by
  unfold deriveParameters
  rw [if_pos (by rw [h, sub_self])]

/-- Witness for C3 at the degenerate input `x1 = x2 = 1` (other inputs at
their defaults): initialization does not succeed. -/
theorem degenerate_calibration_rejected_witness :
    (1 : ℚ) = 1 ∧
    deriveParameters 1 1 30 0.05 10 0.05 = .error .configurationError :=
  ⟨rfl, degenerate_calibration_rejected 1 1 30 0.05 10 0.05 rfl⟩

/-- C4 (code bug): for the input `pressure = float("inf")`, which passes
the `ge=0` boundary check, the handler returns a success response carrying
non-finite volumes (`inf` and `-inf`) instead of failing with a
non-finite-result error: the validity check `isinstance(x, (int, float))`
at lines 75-77 is `True` for every float, so it can never detect a
non-finite result. -/
theorem inf_pressure_returns_nonfinite_ok :
    get_phase_change_diagramF .inf =
      .ok { specific_volume_liquid := .inf
            specific_volume_vapor := .negInf } := by
  have h1 : PyFloat.divFin (PyFloat.subFin .inf AL) ML = .ok .inf := by
    simp [PyFloat.subFin, PyFloat.divFin, ML_ne_zero, ML_pos]
  have h2 : PyFloat.divFin (PyFloat.subFin .inf AV) MV = .ok .negInf := by
    simp [PyFloat.subFin, PyFloat.divFin, MV_ne_zero, not_lt.mpr MV_neg.le]
  unfold get_phase_change_diagramF
  simp [PyFloat.ge0, h1, h2, isinstance_int_float, PyFloat.round6F]

/-- C5: every negative pressure is rejected at the API boundary (the
pydantic `Query(ge=0)` validation, the spec's `InvalidInputError`) before
the evaluation formula runs. -/
theorem negative_pressure_rejected (p : ℚ) (h : p < 0) :
    get_phase_change_diagram p = .error .invalidInput := by
  unfold get_phase_change_diagram
  rw [if_pos h]

/-- Witness for C5 at `p = -1`. -/
theorem negative_pressure_rejected_witness :
    (-1 : ℚ) < 0 ∧ get_phase_change_diagram (-1) = .error .invalidInput :=
  ⟨by norm_num, negative_pressure_rejected (-1) (by norm_num)⟩

/-- C6 (counterexample): the returned `specific_volume_liquid` is NOT
strictly increasing in pressure: the pressures `0 < 0.0001` both map to
the same rounded liquid volume `0.001038`, because the unrounded increase
(about `2.5e-8`) is below the 6-decimal rounding resolution. -/
theorem rounded_liquid_not_strictly_mono :
    (0 : ℚ) < 0.0001 ∧
    (get_phase_change_diagram 0).map (fun r => r.specific_volume_liquid) =
      .ok 0.001038 ∧
    (get_phase_change_diagram 0.0001).map (fun r => r.specific_volume_liquid) =
      .ok 0.001038 := by
  refine ⟨by norm_num, ?_, ?_⟩
  · rw [handler_at_zero]
    simp only [Except.map]
  · rw [handler_ok_formula 0.0001 (by norm_num)]
    have hl : (0.0001 - AL) / ML = 2065049 / 1990000000 := by
      rw [AL_eq, ML_eq]; norm_num
    simp only [Except.map, hl,
      round6_eval_up (2065049 / 1990000000) 1037 (by norm_num) (by norm_num)]
    norm_num

/-- C6 (amended): with the default constants (`ML > 0`), the unrounded
liquid volume `(p - AL) / ML` is strictly increasing in pressure, and the
returned (6-decimal-rounded) `specific_volume_liquid` is monotone
non-decreasing. -/
theorem liquid_volume_mono_amended (p1 p2 : ℚ) (r1 r2 : PhaseChangeResponse)
    (h0 : 0 ≤ p1) (h12 : p1 < p2)
    (e1 : get_phase_change_diagram p1 = .ok r1)
    (e2 : get_phase_change_diagram p2 = .ok r2) :
    (p1 - AL) / ML < (p2 - AL) / ML ∧
    r1.specific_volume_liquid ≤ r2.specific_volume_liquid := by
  have h02 : 0 ≤ p2 := le_trans h0 h12.le
  have hinv : 0 < ML⁻¹ := inv_pos.mpr ML_pos
  have hstrict : (p1 - AL) / ML < (p2 - AL) / ML := by
    have hm : (p1 - AL) * ML⁻¹ < (p2 - AL) * ML⁻¹ :=
      mul_lt_mul_of_pos_right (by linarith) hinv
    simpa [div_eq_mul_inv] using hm
  rw [handler_ok_formula p1 h0] at e1
  rw [handler_ok_formula p2 h02] at e2
  simp only [Except.ok.injEq] at e1 e2
  subst e1
  subst e2
  exact ⟨hstrict, round6_mono hstrict.le⟩

/-- Witness for C6 (amended) at `p1 = 0`, `p2 = 1`: the rounded liquid
volumes are `0.001038 ≤ 0.001284`. -/
theorem liquid_volume_mono_amended_witness :
    (0 : ℚ) ≤ 0 ∧ (0 : ℚ) < 1 ∧
    get_phase_change_diagram 0 =
      .ok { specific_volume_liquid := 0.001038
            specific_volume_vapor := 30.150736 } ∧
    get_phase_change_diagram 1 =
      .ok { specific_volume_liquid := 0.001284
            specific_volume_vapor := 27.136013 } ∧
    ((0 - AL) / ML < (1 - AL) / ML ∧ (0.001038 : ℚ) ≤ (0.001284 : ℚ)) := by
  refine ⟨le_rfl, by norm_num, handler_at_zero, handler_at_one, ?_⟩
  exact liquid_volume_mono_amended 0 1 _ _ le_rfl (by norm_num)
    handler_at_zero handler_at_one

/-- C7: with the default constants both segment denominators and both
slopes are non-zero, so for every pressure `p ≥ 0` the evaluation takes no
error branch and returns a result (whose components, being rationals of
the embedding, are finite). -/
theorem evaluation_total_on_nonneg (p : ℚ) (hp : 0 ≤ p) :
    X2 - X1 ≠ 0 ∧ X3 - X2 ≠ 0 ∧ ML ≠ 0 ∧ MV ≠ 0 ∧
    ∃ r : PhaseChangeResponse, get_phase_change_diagram p = .ok r := by
  exact ⟨by norm_num [X1, X2], by norm_num [X2, X3], ML_ne_zero, MV_ne_zero,
    ⟨_, handler_ok_formula p hp⟩⟩

/-- Witness for C7 at the boundary `p = 0`. -/
theorem evaluation_total_on_nonneg_witness :
    (0 : ℚ) ≤ 0 ∧
    (X2 - X1 ≠ 0 ∧ X3 - X2 ≠ 0 ∧ ML ≠ 0 ∧ MV ≠ 0 ∧
      ∃ r : PhaseChangeResponse, get_phase_change_diagram 0 = .ok r) :=
  ⟨le_rfl, evaluation_total_on_nonneg 0 le_rfl⟩

/-- C8: the `/constants` endpoint returns exactly the six calibration
constants and the four derived parameters, the latter are exactly the
output of the parameter derivation on the default calibration inputs, and
the evaluation body computes with those very same values.  (In the
embedding all of these are immutable definitions; the source never assigns
to `X1..Y3, ML, MV, AL, AV` after the module-level initialization.) -/
theorem constants_endpoint_consistent :
    get_constants.constants =
      { x1 := X1, x2 := X2, x3 := X3, y1 := Y1, y2 := Y2, y3 := Y3 } ∧
    get_constants.calculated_parameters =
      { ml := ML, mv := MV, al := AL, av := AV } ∧
    deriveParameters X1 X2 X3 Y1 Y2 Y3 =
      .ok { ml := get_constants.calculated_parameters.ml
            mv := get_constants.calculated_parameters.mv
            al := get_constants.calculated_parameters.al
            av := get_constants.calculated_parameters.av } ∧
    ∀ p : ℚ,
      computeVolumes get_constants.calculated_parameters.ml
        get_constants.calculated_parameters.mv
        get_constants.calculated_parameters.al
        get_constants.calculated_parameters.av p =
      computeVolumes ML MV AL AV p := by
  refine ⟨rfl, rfl, ?_, fun p => rfl⟩
  unfold deriveParameters
  rw [if_neg (by norm_num [X1, X2]), if_neg (by norm_num [X2, X3])]
  rfl

/-- C9: evaluation is deterministic — two calls of the handler at the same
pressure give identical results (the embedding of the handler is a pure
function of the pressure and the fixed module constants). -/
theorem evaluate_deterministic (p1 p2 : ℚ) (h : p1 = p2) :
    get_phase_change_diagram p1 = get_phase_change_diagram p2 := by
  rw [h]

/-- Witness for C9 at `p = 5`. -/
theorem evaluate_deterministic_witness :
    (5 : ℚ) = 5 ∧ get_phase_change_diagram 5 = get_phase_change_diagram 5 :=
  ⟨rfl, evaluate_deterministic 5 5 rfl⟩

/-- C10: the evaluation inverts the calibration lines at the calibration
points: at pressure `Y2 = 10` both volumes equal `X2 = 0.0035`; at
pressure `Y1 = 0.05` the liquid volume equals `X1 = 0.00105`; at pressure
`Y3 = 0.05` the vapor volume equals `X3 = 30` (all exactly, so rounding to
6 decimals leaves them unchanged). -/
theorem calibration_points_inverted :
    get_phase_change_diagram Y2 =
      .ok { specific_volume_liquid := X2, specific_volume_vapor := X2 } ∧
    (get_phase_change_diagram Y1).map (fun r => r.specific_volume_liquid) =
      .ok X1 ∧
    (get_phase_change_diagram Y3).map (fun r => r.specific_volume_vapor) =
      .ok X3 := by
  refine ⟨?_, ?_, ?_⟩
  · rw [handler_ok_formula Y2 (by norm_num [Y2])]
    have hl : (Y2 - AL) / ML = 7 / 2000 := by rw [AL_eq, ML_eq]; norm_num [Y2]
    have hv : (Y2 - AV) / MV = 7 / 2000 := by rw [AV_eq, MV_eq]; norm_num [Y2]
    rw [hl, hv, round6_eval_down (7 / 2000) 3500 (by norm_num) (by norm_num)]
    norm_num [X2]
  · rw [handler_ok_formula Y1 (by norm_num [Y1])]
    have hl : (Y1 - AL) / ML = 21 / 20000 := by rw [AL_eq, ML_eq]; norm_num [Y1]
    simp only [Except.map, hl,
      round6_eval_down (21 / 20000) 1050 (by norm_num) (by norm_num)]
    norm_num [X1]
  · rw [handler_ok_formula Y3 (by norm_num [Y3])]
    have hv : (Y3 - AV) / MV = 30 := by rw [AV_eq, MV_eq]; norm_num [Y3]
    simp only [Except.map, hv,
      round6_eval_down 30 30000000 (by norm_num) (by norm_num)]
    norm_num [X3]

end PhaseChangeAPI
